import Mathlib

/-!
Verification of `zig_langref_examples` (file `src/c_interop/c_lib_no_buildsystem/c_lib.c`)
against its natural-language specification.

The C source defines an `int32_t square(int32_t)` function and a
`talk_from_c()` print routine.  We embed `int32_t` arithmetic as `Int`
with explicit reduction modulo `2^32` into the signed range
`[-2^31, 2^31)` (two's-complement wraparound of the compiled code).

The specification additionally describes a foreign-function interop
boundary layer (descriptor table, marshaling layer, call dispatcher,
boundary session) that has no implementation under `src/`; those parts
are modelled from the spec further below.
-/

namespace CLib

/-- Reduce an integer into the 32-bit two's-complement range
`[-2147483648, 2147483648)`, congruent to the input modulo `2^32`. -/
def toInt32 (n : Int) : Int :=
  (n + 2147483648) % 4294967296 - 2147483648

/-- `int32_t square(int32_t x) { return x * x; }` — the multiplication of
two `int32_t` values wraps modulo `2^32` in the compiled code. -/
def square (x : Int) : Int :=
  toInt32 (x * x)

/-- 32-bit two's-complement negation of an `int32_t` value. -/
def int32Neg (x : Int) : Int :=
  toInt32 (-x)

/-- `#define MY_NUM 4` -/
def MY_NUM : Int := 4

/-- The two lines printed by `void talk_from_c()`, in order:
`printf("Hi! This is being printed from a C library!!\n")` followed by
`printf("C says: square of %d is %d\n", MY_NUM, square(MY_NUM))`. -/
def talk_from_c : List String :=
  ["Hi! This is being printed from a C library!!",
   "C says: square of " ++ toString MY_NUM ++ " is " ++ toString (square MY_NUM)]

theorem toInt32_lb (n : Int) : -2147483648 ≤ toInt32 n := by
  unfold toInt32
  omega

theorem toInt32_ub (n : Int) : toInt32 n < 2147483648 := by
  unfold toInt32
  omega

theorem toInt32_emod (n : Int) : toInt32 n % 4294967296 = n % 4294967296 := by
  unfold toInt32
  omega

theorem toInt32_congr {a b : Int} (h : a % 4294967296 = b % 4294967296) :
    toInt32 a = toInt32 b := by
  unfold toInt32
  omega

end CLib

namespace Boundary

/-- Modelled from the spec: supported value kinds of the tagged union
(`Int32, Int64, Float64, Pointer-to-buffer-with-length, Void`); the
marshaling layer, descriptor table and dispatcher have no implementation
under `src/`. -/
inductive Kind where
  | int32
  | int64
  | float64
  | pointer
  | void
deriving DecidableEq

/-- Modelled from the spec: ownership tag carried by every Pointer-kind
value (`Borrowed | TransferredIn | TransferredOut`). -/
inductive Ownership where
  | borrowed
  | transferredIn
  | transferredOut
deriving DecidableEq

/-- Modelled from the spec: `ArgumentValue / ReturnValue`, a tagged union
over the supported kinds.  A Pointer-kind value always carries an explicit
length and an ownership tag, never a bare address; a `Float64` payload is
its 64-bit pattern (the boundary only moves the bits). -/
inductive Value where
  | vInt32 (i : Int)
  | vInt64 (i : Int)
  | vFloat64 (bits : Nat)
  | vPointer (addr len : Nat) (own : Ownership)
  | vVoid
deriving DecidableEq

/-- Modelled from the spec: the native-ABI representation produced by the
marshaling layer for one slot of the call. -/
inductive NativeWord where
  | nwInt (i : Int)
  | nwFloat (bits : Nat)
  | nwPtr (addr len : Nat) (own : Ownership)
  | nwVoid
deriving DecidableEq

/-- Modelled from the spec: the error taxonomy of §7 observable from
`invoke`, plus the dedicated `SessionUnloaded` error of §8. -/
inductive ErrorKind where
  | notFound
  | arityMismatch
  | typeMismatch
  | overflow
  | nativeTrap
  | sessionUnloaded
  | duplicateSymbol
deriving DecidableEq

/-- Modelled from the spec: `CallOutcome` is either `Success(ReturnValue)`
or `Failure(ErrorKind, diagnostic message)`; no partial states. -/
inductive CallOutcome where
  | success (v : Value)
  | failure (e : ErrorKind) (msg : String)
deriving DecidableEq

/-- `o` is a failure with error kind `e`. -/
def failsWith (o : CallOutcome) (e : ErrorKind) : Prop :=
  ∃ msg, o = CallOutcome.failure e msg

/-- Modelled from the spec: `FunctionDescriptor`, an immutable record of
symbol name, ordered argument kinds, return kind and calling-convention
tag. -/
structure FunctionDescriptor where
  name : String
  argKinds : List Kind
  retKind : Kind
  convention : String
deriving DecidableEq

/-- Modelled from the spec: a loaded compiled library, viewed through the
operating system's symbol resolution: each export is a native function
from marshaled words to a result, `none` modelling an abnormal native
termination (trap). -/
structure NativeUnit where
  exports : String → Option (List NativeWord → Option NativeWord)

/-- Modelled from the spec: `NativeUnit` load states. -/
inductive LoadState where
  | unloaded
  | loaded
  | failed
deriving DecidableEq

/-- Modelled from the spec: `LoadError` taxonomy (unit not found, symbol
missing, ABI mismatch), plus an invalid-state error for a `load` issued
outside the Unloaded state. -/
inductive LoadError where
  | unitNotFound
  | symbolMissing
  | abiMismatch
  | invalidState
deriving DecidableEq

/-- Modelled from the spec: `UnloadError` (session not currently loaded). -/
inductive UnloadError where
  | notLoaded
deriving DecidableEq

/-- Modelled from the spec: the Boundary Session — load state, descriptor
table, and the handle to the loaded native unit. -/
structure Session where
  state : LoadState
  table : List FunctionDescriptor
  unit : Option NativeUnit

/-- `-2^31 ≤ i < 2^31` -/
def inRange32 (i : Int) : Prop := -2147483648 ≤ i ∧ i < 2147483648

/-- `-2^63 ≤ i < 2^63` -/
def inRange64 (i : Int) : Prop :=
  -9223372036854775808 ≤ i ∧ i < 9223372036854775808

instance (i : Int) : Decidable (inRange32 i) := by unfold inRange32; infer_instance

instance (i : Int) : Decidable (inRange64 i) := by unfold inRange64; infer_instance

/-- Modelled from the spec: `to_native(ArgumentValue, expected_kind)`.
Numeric values are range-checked against the native slot; an out-of-range
value fails `Overflow` and is never wrapped or truncated; a value whose
category does not match the expected kind fails `TypeMismatch`. -/
def to_native : Value → Kind → Except ErrorKind NativeWord
  | .vInt32 i, .int32 =>
      if inRange32 i then .ok (.nwInt i) else .error .overflow
  | .vInt32 i, .int64 =>
      if inRange64 i then .ok (.nwInt i) else .error .overflow
  | .vInt64 i, .int32 =>
      if inRange32 i then .ok (.nwInt i) else .error .overflow
  | .vInt64 i, .int64 =>
      if inRange64 i then .ok (.nwInt i) else .error .overflow
  | .vFloat64 b, .float64 =>
      if b < 18446744073709551616 then .ok (.nwFloat b) else .error .overflow
  | .vPointer a l o, .pointer => .ok (.nwPtr a l o)
  | .vVoid, .void => .ok .nwVoid
  | _, _ => .error .typeMismatch

/-- Modelled from the spec: `from_native(NativeWord, expected_kind) ->
ReturnValue`. -/
def from_native : NativeWord → Kind → Value
  | .nwInt i, .int32 => .vInt32 i
  | .nwInt i, .int64 => .vInt64 i
  | .nwFloat b, .float64 => .vFloat64 b
  | .nwPtr a l o, .pointer => .vPointer a l o
  | _, _ => .vVoid

/-- `v` is an in-range value whose declared kind is `k`. -/
def valueOfKind : Value → Kind → Prop
  | .vInt32 i, .int32 => inRange32 i
  | .vInt64 i, .int64 => inRange64 i
  | .vFloat64 b, .float64 => b < 18446744073709551616
  | .vPointer _ _ _, .pointer => True
  | .vVoid, .void => True
  | _, _ => False

/-- Modelled from the spec: descriptor lookup by symbol name
(`lookup(name) -> FunctionDescriptor or NotFound`). -/
def lookupDescriptor (table : List FunctionDescriptor) (name : String) :
    Option FunctionDescriptor :=
  table.find? (fun d => d.name == name)

/-- Marshal the arguments in declared order, propagating the first error. -/
def marshalArgs : List Value → List Kind → Except ErrorKind (List NativeWord)
  | [], [] => .ok []
  | v :: vs, k :: ks => do
      let w ← to_native v k
      let ws ← marshalArgs vs ks
      pure (w :: ws)
  | _, _ => .error .arityMismatch

/-- Modelled from the spec: the Call Dispatcher.  Resolve the descriptor
(fails `NotFound`); refuse to call while the unit is not Loaded (dedicated
`SessionUnloaded` error); validate arity (`ArityMismatch`); marshal each
argument (`TypeMismatch` / `Overflow`); perform the native call, containing
a trap as `Failure(NativeTrap, ...)`; unmarshal the result.  The second
component records whether a native function was actually invoked. -/
def dispatch (s : Session) (name : String) (args : List Value) :
    CallOutcome × Bool :=
  match lookupDescriptor s.table name with
  | none => (.failure .notFound "symbol not registered", false)
  | some d =>
    match s.state, s.unit with
    | .loaded, some u =>
        if args.length = d.argKinds.length then
          match marshalArgs args d.argKinds with
          | .error e => (.failure e "argument marshaling failed", false)
          | .ok ws =>
            match u.exports d.name with
            | none => (.failure .notFound "export not resolved", false)
            | some f =>
              match f ws with
              | none => (.failure .nativeTrap "native call aborted", true)
              | some w => (.success (from_native w d.retKind), true)
        else (.failure .arityMismatch "wrong number of arguments", false)
    | _, _ => (.failure .sessionUnloaded "native unit is not loaded", false)

/-- Modelled from the spec: `invoke(name, args) -> CallOutcome`. -/
def invoke (s : Session) (name : String) (args : List Value) : CallOutcome :=
  (dispatch s name args).1

/-- Modelled from the spec: `load(path)`.  From Unloaded, validate that
every registered descriptor resolves in the unit: on success the session
becomes Loaded, on a missing required export it becomes Failed (terminal).
A `load` issued in any other state fails and leaves the state unchanged. -/
def loadUnit (s : Session) (u : NativeUnit) : Session × Except LoadError Unit :=
  match s.state with
  | .unloaded =>
      if s.table.all (fun d => (u.exports d.name).isSome) then
        ({ s with state := .loaded, unit := some u }, .ok ())
      else
        ({ s with state := .failed, unit := none }, .error .symbolMissing)
  | _ => (s, .error .invalidState)

/-- Modelled from the spec: `unload()`.  From Loaded the session returns to
Unloaded and drops the unit handle; in any other state it fails and leaves
the state unchanged. -/
def unloadSession (s : Session) : Session × Except UnloadError Unit :=
  match s.state with
  | .loaded => ({ s with state := .unloaded, unit := none }, .ok ())
  | _ => (s, .error .notLoaded)

/-- The operations a caller can issue against a Boundary Session. -/
inductive Op where
  | load (u : NativeUnit)
  | unload
  | call (name : String) (args : List Value)

/-- The session resulting from one operation.  `invoke` returns only a
`CallOutcome` and never modifies the session (in particular it never
re-loads the unit). -/
def applyOp (s : Session) : Op → Session
  | .load u => (loadUnit s u).1
  | .unload => (unloadSession s).1
  | .call _ _ => s

/-- A fresh session starts Unloaded with its descriptor table registered
and no unit handle. -/
def initSession (table : List FunctionDescriptor) : Session :=
  ⟨.unloaded, table, none⟩

/-- Session states reachable from a fresh session by any sequence of
operations. -/
inductive Reachable : Session → Prop where
  | init (table : List FunctionDescriptor) : Reachable (initSession table)
  | step (s : Session) (op : Op) : Reachable s → Reachable (applyOp s op)

/-- The load-state transitions the spec permits: stay in place, move
Unloaded → Loaded or Unloaded → Failed on a `load`, or Loaded → Unloaded
on an `unload`; Failed is terminal. -/
def edgeOK : LoadState → LoadState → Prop
  | .unloaded, _ => True
  | .loaded, .loaded => True
  | .loaded, .unloaded => True
  | .failed, .failed => True
  | _, _ => False

end Boundary

/-- C1: for every 32-bit signed integer `x`, `square x` is the product
`x * x` computed in 32-bit two's-complement arithmetic: the result is
congruent to the mathematical product modulo `2^32` and lies in the
`int32_t` range `[-2^31, 2^31)`. -/
theorem C1_square_is_int32_product (x : Int)
    (h1 : -2147483648 ≤ x) (h2 : x < 2147483648) :
    CLib.square x % 4294967296 = (x * x) % 4294967296 ∧
    -2147483648 ≤ CLib.square x ∧ CLib.square x < 2147483648 :=
  ⟨CLib.toInt32_emod (x * x), CLib.toInt32_lb (x * x), CLib.toInt32_ub (x * x)⟩

/-- Witness for C1 at `x = 3`: `square 3 = 9`. -/
theorem C1_square_is_int32_product_witness :
    ((-2147483648 : Int) ≤ 3 ∧ (3 : Int) < 2147483648) ∧
    (CLib.square 3 % 4294967296 = (3 * 3) % 4294967296 ∧
     -2147483648 ≤ CLib.square 3 ∧ CLib.square 3 < 2147483648) :=
  ⟨⟨by decide, by decide⟩, C1_square_is_int32_product 3 (by decide) (by decide)⟩

/-- C8: `talk_from_c` prints exactly two fixed lines, the first being
`"Hi! This is being printed from a C library!!"` and the second
`"C says: square of 4 is 16"` (`MY_NUM = 4` and `square 4 = 16`); being a
constant, its output never varies between calls. -/
theorem C8_talk_from_c_output :
    CLib.talk_from_c =
      ["Hi! This is being printed from a C library!!",
       "C says: square of 4 is 16"] ∧
    CLib.talk_from_c.length = 2 := by
  constructor <;> rfl

/-- C9: squaring is an even function on `int32_t`: for every 32-bit signed
integer `x`, `square (int32Neg x) = square x`, where `int32Neg` is
two's-complement negation (including the wraparound edge `x = INT32_MIN`). -/
theorem C9_square_even (x : Int)
    (h1 : -2147483648 ≤ x) (h2 : x < 2147483648) :
    CLib.square (CLib.int32Neg x) = CLib.square x := by
  unfold CLib.square CLib.int32Neg
  apply CLib.toInt32_congr
  have h : CLib.toInt32 (-x) ≡ -x [ZMOD (4294967296 : Int)] := CLib.toInt32_emod (-x)
  have hmul := h.mul h
  calc CLib.toInt32 (-x) * CLib.toInt32 (-x) % 4294967296
      = -x * -x % 4294967296 := hmul
    _ = x * x % 4294967296 := by rw [neg_mul_neg]

/-- Witness for C9 at the wraparound edge `x = INT32_MIN = -2147483648`. -/
theorem C9_square_even_witness :
    ((-2147483648 : Int) ≤ -2147483648 ∧ (-2147483648 : Int) < 2147483648) ∧
    CLib.square (CLib.int32Neg (-2147483648)) = CLib.square (-2147483648) :=
  ⟨⟨by decide, by decide⟩, C9_square_even (-2147483648) (by decide) (by decide)⟩

/-- C10: there is a 32-bit signed integer whose square is negative:
at `x = 46341` the product `46341 * 46341 = 2147488281` exceeds `INT32_MAX`
and wraps to `-2147479015`. -/
theorem C10_square_can_be_negative :
    ∃ x : Int, -2147483648 ≤ x ∧ x < 2147483648 ∧
      CLib.square x = -2147479015 ∧ CLib.square x < 0 :=
  ⟨46341, by decide, by decide, by decide, by decide⟩

/-- C2: a numeric value crossing into a narrower native slot fails with
`Overflow` when it is out of the native range, and whenever `to_native`
succeeds on a numeric value the native word carries exactly the host
integer — no boundary operation silently wraps or truncates. -/
theorem C2_narrowing_fails_overflow :
    (∀ i : Int, ¬ Boundary.inRange32 i →
      Boundary.to_native (.vInt64 i) .int32 = .error .overflow) ∧
    (∀ (i : Int) (k : Boundary.Kind) (w : Boundary.NativeWord),
      Boundary.to_native (.vInt64 i) k = .ok w → w = .nwInt i) ∧
    (∀ (i : Int) (k : Boundary.Kind) (w : Boundary.NativeWord),
      Boundary.to_native (.vInt32 i) k = .ok w → w = .nwInt i) := by
  refine ⟨?_, ?_, ?_⟩
  · intro i h
    simp [Boundary.to_native, h]
  · intro i k w h
    cases k <;> simp [Boundary.to_native] at h <;> split at h <;> simp_all
  · intro i k w h
    cases k <;> simp [Boundary.to_native] at h <;> split at h <;> simp_all

/-- Witness for C2: the out-of-range 64-bit value `2^31` narrowed into an
`Int32` slot fails with `Overflow`. -/
theorem C2_narrowing_fails_overflow_witness :
    ¬ Boundary.inRange32 2147483648 ∧
    Boundary.to_native (.vInt64 2147483648) .int32 =
      .error .overflow :=
  ⟨by decide, C2_narrowing_fails_overflow.1 2147483648 (by decide)⟩

/-- C3: for every in-range value of a declared kind, `to_native` succeeds
and `from_native` of the resulting native word yields the original value:
marshal-then-unmarshal is the identity on valid argument values. -/
theorem C3_marshal_roundtrip (v : Boundary.Value) (k : Boundary.Kind)
    (h : Boundary.valueOfKind v k) :
    ∃ w, Boundary.to_native v k = .ok w ∧ Boundary.from_native w k = v := by
  cases v <;> cases k <;>
    simp_all [Boundary.valueOfKind, Boundary.to_native, Boundary.from_native]

/-- Witness for C3 at the in-range `Int32` value `5`. -/
theorem C3_marshal_roundtrip_witness :
    Boundary.valueOfKind (.vInt32 5) .int32 ∧
    ∃ w, Boundary.to_native (.vInt32 5) .int32 = .ok w ∧
         Boundary.from_native w .int32 = .vInt32 5 :=
  ⟨⟨by decide, by decide⟩,
   C3_marshal_roundtrip (.vInt32 5) .int32 ⟨by decide, by decide⟩⟩

/-- C4: `invoke` on a name absent from the Descriptor Table always returns
a `NotFound` failure — in particular it never returns a fabricated
`Success` value. -/
theorem C4_unregistered_name_notFound (s : Boundary.Session) (name : String)
    (args : List Boundary.Value)
    (h : Boundary.lookupDescriptor s.table name = none) :
    Boundary.invoke s name args =
      .failure .notFound "symbol not registered" := by
  unfold Boundary.invoke Boundary.dispatch
  rw [h]

/-- Witness for C4: a session with an empty descriptor table fails
`NotFound` on `invoke "square"`. -/
theorem C4_unregistered_name_notFound_witness :
    Boundary.lookupDescriptor (Boundary.initSession []).table "square" = none ∧
    Boundary.invoke (Boundary.initSession []) "square" [] =
      Boundary.CallOutcome.failure .notFound "symbol not registered" :=
  ⟨rfl, C4_unregistered_name_notFound (Boundary.initSession []) "square" [] rfl⟩

/-- C5: in every reachable Boundary Session state, no native function is
invoked while the session is not Loaded; one operation moves the load
state only along the permitted edges (Unloaded → Loaded → Unloaded, with
Unloaded → Failed on failed load validation); and Failed is terminal. -/
theorem C5_session_state_machine (s : Boundary.Session)
    (h : Boundary.Reachable s) :
    (∀ name args, s.state ≠ .loaded →
      (Boundary.dispatch s name args).2 = false) ∧
    (∀ op, Boundary.edgeOK s.state (Boundary.applyOp s op).state) ∧
    (s.state = .failed → ∀ op, (Boundary.applyOp s op).state = .failed) := by
  clear h
  obtain ⟨st, tbl, u⟩ := s
  refine ⟨?_, ?_, ?_⟩
  · intro name args hs
    unfold Boundary.dispatch
    cases Boundary.lookupDescriptor tbl name with
    | none => rfl
    | some d =>
      cases st with
      | loaded => exact absurd rfl hs
      | unloaded => cases u <;> rfl
      | failed => cases u <;> rfl
  · intro op
    cases op with
    | load nu =>
      cases st <;>
        simp only [Boundary.applyOp, Boundary.loadUnit] <;>
        first
        | (split <;> trivial)
        | trivial
    | unload =>
      cases st <;> simp [Boundary.applyOp, Boundary.unloadSession, Boundary.edgeOK]
    | call name args =>
      cases st <;> simp [Boundary.applyOp, Boundary.edgeOK]
  · intro hf op
    subst hf
    cases op with
    | load nu => rfl
    | unload => rfl
    | call name args => rfl

/-- Witness for C5: the fresh (Unloaded) session is reachable and
dispatching on it performs no native call. -/
theorem C5_session_state_machine_witness :
    Boundary.Reachable (Boundary.initSession []) ∧
    (Boundary.dispatch (Boundary.initSession []) "talk_from_c" []).2 = false :=
  ⟨Boundary.Reachable.init [],
   (C5_session_state_machine (Boundary.initSession [])
      (Boundary.Reachable.init [])).1 "talk_from_c" [] (by decide)⟩

/-- C6: after a successful `unload()` the session is Unloaded, every
subsequent `invoke` fails with `NotFound` or the dedicated
`SessionUnloaded` error, and the `invoke` leaves the session unchanged —
the unit is never implicitly re-loaded to serve the call. -/
theorem C6_invoke_after_unload_fails (s : Boundary.Session)
    (h : s.state = .loaded) :
    (Boundary.unloadSession s).2 = .ok () ∧
    (Boundary.unloadSession s).1.state = .unloaded ∧
    ∀ name args,
      (Boundary.failsWith
          (Boundary.invoke (Boundary.unloadSession s).1 name args) .notFound ∨
       Boundary.failsWith
          (Boundary.invoke (Boundary.unloadSession s).1 name args)
          .sessionUnloaded) ∧
      Boundary.applyOp (Boundary.unloadSession s).1 (.call name args) =
        (Boundary.unloadSession s).1 := by
  obtain ⟨st, tbl, u⟩ := s
  cases h
  refine ⟨rfl, rfl, ?_⟩
  intro name args
  refine ⟨?_, rfl⟩
  unfold Boundary.invoke Boundary.dispatch Boundary.unloadSession
  cases Boundary.lookupDescriptor tbl name with
  | none => exact Or.inl ⟨"symbol not registered", rfl⟩
  | some d => exact Or.inr ⟨"native unit is not loaded", rfl⟩

/-- A native unit every call into which traps; used only to exhibit a
concrete Loaded session. -/
def demoUnit : Boundary.NativeUnit := ⟨fun _ => some (fun _ => none)⟩

/-- A concrete Loaded session over `demoUnit` with an empty table. -/
def demoLoaded : Boundary.Session := ⟨.loaded, [], some demoUnit⟩

/-- Witness for C6 on the concrete Loaded session `demoLoaded`. -/
theorem C6_invoke_after_unload_fails_witness :
    demoLoaded.state = Boundary.LoadState.loaded ∧
    (Boundary.unloadSession demoLoaded).2 = .ok () ∧
    (Boundary.unloadSession demoLoaded).1.state = .unloaded ∧
    (Boundary.failsWith
        (Boundary.invoke (Boundary.unloadSession demoLoaded).1 "square" [])
        .notFound ∨
     Boundary.failsWith
        (Boundary.invoke (Boundary.unloadSession demoLoaded).1 "square" [])
        .sessionUnloaded) :=
  ⟨rfl, (C6_invoke_after_unload_fails demoLoaded rfl).1,
   (C6_invoke_after_unload_fails demoLoaded rfl).2.1,
   ((C6_invoke_after_unload_fails demoLoaded rfl).2.2 "square" []).1⟩
